import Mathlib

/-!
Verification development for the avro-vscode-extension authentication core.

The TypeScript source is shallowly embedded: network calls (`fetch`) are
modelled by an explicit `Network` oracle mapping request parameters to an
`HttpResult` (an HTTP response with a status and a parsed body, or a
transport-level failure, which in the source surfaces as a caught exception);
the VSCode `SecretStorage`/`globalState` pair is modelled by a four-field
record `SecureStorage`; async functions become pure functions of the oracle
and the storage state.
-/

namespace Avro

/-- The `'admin' | 'member'` role union from `src/github/auth.ts`. -/
inductive Role where
  | admin
  | member
  deriving DecidableEq

/-- The `'active' | 'pending'` membership-state union from `src/github/auth.ts`. -/
inductive MembershipState where
  | active
  | pending
  deriving DecidableEq

/-- `GitHubUser` from `src/github/auth.ts`. -/
structure GitHubUser where
  login : String
  id : Nat
  name : Option String
  email : Option String
  deriving DecidableEq

/-- `GitHubOrgMembership` from `src/github/auth.ts`. -/
structure GitHubOrgMembership where
  url : String
  role : Role
  state : MembershipState
  organization_url : String
  deriving DecidableEq

/-- `AuthenticationResult` from `src/github/auth.ts`. -/
structure AuthenticationResult where
  success : Bool
  user : Option GitHubUser
  error : Option String
  errorCode : Option String
  deriving DecidableEq

/-- `RoleVerificationResult` from `src/github/auth.ts`. -/
structure RoleVerificationResult where
  success : Bool
  hasAccess : Bool
  membership : Option GitHubOrgMembership
  error : Option String
  deriving DecidableEq

/-- Outcome of a `fetch` call: an HTTP response carrying a status code and the
JSON body parsed to `α`, or a transport-level failure (the thrown error that the
source catches), carrying the error message. -/
inductive HttpResult (α : Type) where
  | response (status : Nat) (body : α)
  | fetchError (message : String)
  deriving DecidableEq

/-- The network oracle: `userEndpoint pat` is the outcome of
`GET https://api.github.com/user` with token `pat`;
`membershipEndpoint pat org username` is the outcome of
`GET https://api.github.com/orgs/ORG/memberships/USERNAME`. -/
structure Network where
  userEndpoint : String → HttpResult GitHubUser
  membershipEndpoint : String → String → String → HttpResult GitHubOrgMembership

/-- A network whose endpoints ignore the request parameters, for instantiating
lemmas at a fixed pair of endpoint outcomes. -/
def constNet (uo : HttpResult GitHubUser) (mo : HttpResult GitHubOrgMembership) : Network :=
  ⟨fun _ => uo, fun _ _ _ => mo⟩

/-- JavaScript `a || b` for an optional string `a` and a string default `b`
(an absent or empty string falls through to the default). -/
def strOrDefault : Option String → String → String
  | none, d => d
  | some s, d => if s = "" then d else s

/-- Truthiness of a `string | undefined` value (`!!x`). -/
def truthy : Option String → Bool
  | none => false
  | some s => decide (s ≠ "")

/-- Executable substring occurrence on character lists. -/
def listHasInfix (pat : List Char) : List Char → Bool
  | [] => pat.isEmpty
  | c :: rest => List.isPrefixOf pat (c :: rest) || listHasInfix pat rest

/-- JavaScript `s.includes(pat)` substring test. -/
def strIncludes (s pat : String) : Bool :=
  listHasInfix pat.data s.data

/-- `validatePAT` from `src/github/auth.ts`: validates a GitHub PAT against the
`/user` endpoint. -/
def validatePAT (net : Network) (pat : String) : AuthenticationResult :=
  match net.userEndpoint pat with
  | .response status body =>
    if status = 200 then
      ⟨true, some body, none, none⟩
    else if status = 401 then
      ⟨false, none, some "Invalid or expired Personal Access Token", some "401"⟩
    else
      ⟨false, none, some ("GitHub API returned status " ++ toString status),
        some (toString status)⟩
  | .fetchError msg =>
      ⟨false, none, some ("Network error: " ++ msg), some "NETWORK_ERROR"⟩

/-- `verifyUserRole` from `src/github/auth.ts`: checks the user's membership in
the organization against the membership endpoint. -/
def verifyUserRole (net : Network) (pat org username : String)
    (requiredRoles : List Role := [Role.member]) : RoleVerificationResult :=
  match net.membershipEndpoint pat org username with
  | .response status membership =>
    if status = 200 then
      let hasRequiredRole := decide (membership.role ∈ requiredRoles)
      let isActive := decide (membership.state = MembershipState.active)
      let hasAccess := hasRequiredRole && isActive
      ⟨true, hasAccess, some membership, none⟩
    else if status = 404 then
      ⟨true, false, none, some "User is not a member of this organization"⟩
    else if status = 401 then
      ⟨false, false, none, some "Invalid Personal Access Token or insufficient permissions"⟩
    else if status = 403 then
      ⟨false, false, none,
        some "Insufficient permissions. PAT must have read:org or admin:org scope"⟩
    else
      ⟨false, false, none, some ("GitHub API returned status " ++ toString status)⟩
  | .fetchError msg =>
      ⟨false, false, none, some ("Network error: " ++ msg)⟩

/-- The anonymous result record of `authenticateUser` in `src/github/auth.ts`. -/
structure AuthenticateUserResult where
  success : Bool
  user : Option GitHubUser
  role : Option Role
  error : Option String
  deriving DecidableEq

/-- `authenticateUser` from `src/github/auth.ts`: validate PAT, then verify the
role. The second component of the result is instrumentation recording whether
`verifyUserRole` (the Role Resolver endpoint) was invoked during the run. -/
def authenticateUser (net : Network) (pat org : String)
    (requiredRoles : List Role := [Role.member]) : AuthenticateUserResult × Bool :=
  let patResult := validatePAT net pat
  match patResult.user, patResult.success with
  | none, _ =>
      (⟨false, none, none, some (strOrDefault patResult.error "Failed to validate PAT")⟩, false)
  | some _, false =>
      (⟨false, none, none, some (strOrDefault patResult.error "Failed to validate PAT")⟩, false)
  | some user, true =>
      let roleResult := verifyUserRole net pat org user.login requiredRoles
      if !roleResult.success then
        (⟨false, none, none,
          some (strOrDefault roleResult.error "Failed to verify user role")⟩, true)
      else if !roleResult.hasAccess then
        (⟨false, none, none,
          some (strOrDefault roleResult.error
            "User does not have the required role in the organization")⟩, true)
      else
        (⟨true, some user, roleResult.membership.map GitHubOrgMembership.role, none⟩, true)

/-- State of the `SecureStorage` class from `src/utils/secureStorage.ts`: the
secret-stored PAT plus the three `globalState` fields (org, user, role). -/
structure SecureStorage where
  pat : Option String
  org : Option String
  user : Option String
  role : Option String
  deriving DecidableEq

/-- `SecureStorage.storePAT`. -/
def SecureStorage.storePAT (s : SecureStorage) (pat : String) : SecureStorage :=
  { s with pat := some pat }

/-- `SecureStorage.getPAT`. -/
def SecureStorage.getPAT (s : SecureStorage) : Option String := s.pat

/-- `SecureStorage.storeOrganization`. -/
def SecureStorage.storeOrganization (s : SecureStorage) (org : String) : SecureStorage :=
  { s with org := some org }

/-- `SecureStorage.getOrganization`. -/
def SecureStorage.getOrganization (s : SecureStorage) : Option String := s.org

/-- `SecureStorage.storeUser`. -/
def SecureStorage.storeUser (s : SecureStorage) (username : String) : SecureStorage :=
  { s with user := some username }

/-- `SecureStorage.getUser`. -/
def SecureStorage.getUser (s : SecureStorage) : Option String := s.user

/-- `SecureStorage.storeRole`. -/
def SecureStorage.storeRole (s : SecureStorage) (role : String) : SecureStorage :=
  { s with role := some role }

/-- `SecureStorage.getRole`. -/
def SecureStorage.getRole (s : SecureStorage) : Option String := s.role

/-- `SecureStorage.clearAll`: deletes the secret PAT and clears the three
`globalState` fields (updating a `globalState` key to `undefined` removes it). -/
def SecureStorage.clearAll (s : SecureStorage) : SecureStorage :=
  { s with pat := none, org := none, user := none, role := none }

/-- `SecureStorage.isAuthenticated`: `!!pat && !!user`. -/
def SecureStorage.isAuthenticated (s : SecureStorage) : Bool :=
  truthy s.getPAT && truthy s.getUser

/-- The spec's Session record: the four persisted fields. -/
structure Session where
  token : String
  organization : String
  handle : String
  role : String
  deriving DecidableEq

/-- Modelled from the spec: the Credential Store's `load() -> session | absent`
operation (spec section 4.4). The source exposes only the four field getters and
no composite load, so `load` is the composite read of those four getters: the
saved Session when all four persisted fields are present, absent otherwise. -/
def SecureStorage.load (s : SecureStorage) : Option Session :=
  match s.getPAT, s.getOrganization, s.getUser, s.getRole with
  | some p, some o, some u, some r => some ⟨p, o, u, r⟩
  | _, _, _, _ => none

/-- The data fields of the `Item` tree node from `itemsProvider.ts` (the
rendering-only fields of the platform base type are omitted). -/
structure Item where
  id : String
  label : String
  description : String
  itemType : String
  deriving DecidableEq

/-- `ItemsProvider.filterItemsByRole` from `itemsProvider.ts`, with the
provider's `userRole` field made an explicit parameter. -/
def filterItemsByRole (userRole : Option Role) (items : List Item) : List Item :=
  if userRole = some Role.admin then
    items
  else if userRole = some Role.member then
    items.filter (fun item => !strIncludes item.itemType "admin-only")
  else
    []

/-- An item is privileged when its visibility tag (the free-text `itemType`
field) contains the substring `admin-only`. -/
def privilegedItem (item : Item) : Bool :=
  strIncludes item.itemType "admin-only"

/-- Reference Access Filter following the spec's words (section 4.6): absent
role yields the empty sequence; admin is the identity filter; member drops each
privileged item and keeps the rest in their original relative order. -/
def accessFilterSpec : Option Role → List Item → List Item
  | none, _ => []
  | some Role.admin, items => items
  | some Role.member, [] => []
  | some Role.member, item :: rest =>
    if privilegedItem item then accessFilterSpec (some Role.member) rest
    else item :: accessFilterSpec (some Role.member) rest

/-- `AuthenticationDialogResult` from `src/ui/authenticationDialog.ts`. -/
structure AuthenticationDialogResult where
  success : Bool
  pat : Option String
  org : Option String
  username : Option String
  role : Option Role
  error : Option String
  deriving DecidableEq

/-- Rendering of a role for `SecureStorage.storeRole` (the source stores the
role's string value). -/
def roleString : Role → String
  | Role.admin => "admin"
  | Role.member => "member"

/-- `getDetailedErrorMessage` from `src/ui/authenticationDialog.ts`. -/
def getDetailedErrorMessage (error : Option String) (org _pat : String) : String :=
  let baseError := strOrDefault error "Authentication failed"
  if strIncludes baseError "401" || strIncludes baseError "Unauthorized" then
    "Invalid Personal Access Token. Please verify your PAT is correct and has read:org scope.\n\nDetails: "
      ++ baseError
  else if strIncludes baseError "404" || strIncludes baseError "Not Found" then
    "Organization \"" ++ org ++ "\" not found or you don\x27t have access to it.\n\nDetails: "
      ++ baseError
  else if strIncludes baseError "403" || strIncludes baseError "Forbidden" then
    "Access denied. Your PAT may not have the required \"read:org\" scope.\n\nDetails: "
      ++ baseError
  else if strIncludes baseError "timeout" || strIncludes baseError "ECONNREFUSED" then
    "Network error: Unable to connect to GitHub. Please check your internet connection.\n\nDetails: "
      ++ baseError
  else if strIncludes baseError "membership" || strIncludes baseError "member" then
    "You are not a member of the \"" ++ org ++ "\" organization.\n\nDetails: " ++ baseError
  else
    baseError
      ++ "\n\nTroubleshooting:\n• Verify your PAT has \"read:org\" scope\n• Check the organization name is correct: \""
      ++ org ++ "\"\n• Ensure your PAT is still valid (not expired)"

/-- `showAuthenticationDialog` from `src/ui/authenticationDialog.ts`.
`patInput` is the outcome of the PAT input box (`none` when the user cancels);
the function returns the dialog result together with the storage state after the
run. -/
def showAuthenticationDialog (net : Network) (patInput : Option String)
    (storage : SecureStorage) (_defaultOrg : Option String) :
    AuthenticationDialogResult × SecureStorage :=
  let org := "avrocc"
  if !truthy patInput then
    (⟨false, none, none, none, none, some "Cancelled"⟩, storage)
  else
    let pat := patInput.getD ""
    let result := (authenticateUser net pat org [Role.admin, Role.member]).1
    if !result.success then
      (⟨false, none, none, none, none,
        some (getDetailedErrorMessage result.error org pat)⟩, storage)
    else
      match result.user with
      | none =>
        (⟨false, none, none, none, none,
          some "No user information returned from GitHub API"⟩, storage)
      | some user =>
        let s1 := storage.storePAT pat
        let s2 := s1.storeOrganization org
        let s3 := s2.storeUser user.login
        let s4 := match result.role with
          | some r => s3.storeRole (roleString r)
          | none => s3
        (⟨true, some pat, some org, some user.login, result.role, none⟩, s4)

/-- The session-bootstrap portion of `activate` (lines 17-36 of the extension
entry point): re-validate a stored session's PAT on startup; the first component
is the resulting `isUserAuthenticated` flag, the second the storage state after
the run. -/
def activate (net : Network) (storage : SecureStorage) : Bool × SecureStorage :=
  let isAuthenticated := storage.isAuthenticated
  let storedUser := storage.getUser
  if isAuthenticated && truthy storedUser then
    match storage.getPAT with
    | some pat =>
      if pat = "" then
        (false, storage)
      else
        let result := validatePAT net pat
        if result.success then
          (true, storage)
        else
          (false, storage.clearAll)
    | none => (false, storage)
  else
    (false, storage)

/-- Fixture: a user record. -/
def aliceUser : GitHubUser := ⟨"alice", 1, none, none⟩

/-- Fixture: a pending `member` membership. -/
def pendingMember : GitHubOrgMembership :=
  ⟨"https://api.github.com/m", Role.member, MembershipState.pending,
    "https://api.github.com/o"⟩

/-- Fixture: an active `admin` membership. -/
def activeAdmin : GitHubOrgMembership :=
  ⟨"https://api.github.com/m", Role.admin, MembershipState.active,
    "https://api.github.com/o"⟩

/-- Fixture: valid token, pending membership. -/
def okNet : Network := constNet (.response 200 aliceUser) (.response 200 pendingMember)

/-- Fixture: invalid token (401 from the identity endpoint). -/
def badNet : Network := constNet (.response 401 aliceUser) (.response 200 activeAdmin)

/-- Fixture: a previously stored session. -/
def priorStorage : SecureStorage := ⟨some "oldpat", some "acme", some "bob", some "admin"⟩

/-- Helper: a string with a known head character differs from any extension of a
string with a different head character. -/
theorem append_ne_of_head_ne (p m q : String)
    (hne : p.data.head? ≠ q.data.head?) (hp : p.data ≠ []) : p ++ m ≠ q := by
  intro h
  apply hne
  have hd : p.data ++ m.data = q.data := by
    rw [← String.data_append, h]
  rw [← hd]
  cases hpd : p.data with
  | nil => exact absurd hpd hp
  | cons c ts => simp

/-- C1: on a successful (status 200) membership lookup, `hasAccess` is true iff
the returned role is in `requiredRoles` and the returned state is `active`; in
particular any membership with state `pending` yields `hasAccess = false`. -/
theorem verifyUserRole_hasAccess_iff (uo : HttpResult GitHubUser)
    (pat org username : String) (rr : List Role) (m : GitHubOrgMembership) :
    ((verifyUserRole (constNet uo (.response 200 m)) pat org username rr).hasAccess = true ↔
      (m.role ∈ rr ∧ m.state = MembershipState.active)) ∧
    (m.state = MembershipState.pending →
      (verifyUserRole (constNet uo (.response 200 m)) pat org username rr).hasAccess = false) := by
  constructor
  · simp [verifyUserRole, constNet]
  · intro hpend
    simp [verifyUserRole, constNet, hpend]

/-- Witness for C1 at a concrete pending `member` membership. -/
theorem verifyUserRole_hasAccess_iff_witness :
    (((verifyUserRole (constNet (.response 200 aliceUser) (.response 200 pendingMember))
        "t" "acme" "alice" [Role.admin, Role.member]).hasAccess = true ↔
      (pendingMember.role ∈ [Role.admin, Role.member] ∧
        pendingMember.state = MembershipState.active)) ∧
     (pendingMember.state = MembershipState.pending →
      (verifyUserRole (constNet (.response 200 aliceUser) (.response 200 pendingMember))
        "t" "acme" "alice" [Role.admin, Role.member]).hasAccess = false)) :=
  verifyUserRole_hasAccess_iff (.response 200 aliceUser) "t" "acme" "alice"
    [Role.admin, Role.member] pendingMember

/-- C4: `validatePAT` always returns a result value (it is a total function of
the endpoint outcome); a 401 response yields the failure with code "401", any
other non-200 status yields a failure whose code is that status rendered as a
string, and a transport failure yields the failure with code "NETWORK_ERROR". -/
theorem validatePAT_failure_taxonomy (u : GitHubUser) (mo : HttpResult GitHubOrgMembership)
    (pat : String) (s : Nat) (msg : String) (hs : s ≠ 200) :
    validatePAT (constNet (.response 401 u) mo) pat =
      ⟨false, none, some "Invalid or expired Personal Access Token", some "401"⟩ ∧
    ((validatePAT (constNet (.response s u) mo) pat).success = false ∧
      (validatePAT (constNet (.response s u) mo) pat).errorCode = some (toString s)) ∧
    validatePAT (constNet (.fetchError msg) mo) pat =
      ⟨false, none, some ("Network error: " ++ msg), some "NETWORK_ERROR"⟩ := by
  refine ⟨by simp [validatePAT, constNet], ⟨?_, ?_⟩, by simp [validatePAT, constNet]⟩
  · by_cases h401 : s = 401 <;> simp [validatePAT, constNet, hs, h401]
  · by_cases h401 : s = 401
    · subst h401
      simp [validatePAT, constNet]
      rfl
    · simp [validatePAT, constNet, hs, h401]

/-- Witness for C4 at status 503 and a concrete transport failure. -/
theorem validatePAT_failure_taxonomy_witness :
    (503 : Nat) ≠ 200 ∧
    (validatePAT (constNet (.response 401 aliceUser) (.response 200 activeAdmin)) "x" =
      ⟨false, none, some "Invalid or expired Personal Access Token", some "401"⟩ ∧
    ((validatePAT (constNet (.response 503 aliceUser) (.response 200 activeAdmin)) "x").success
        = false ∧
      (validatePAT (constNet (.response 503 aliceUser) (.response 200 activeAdmin)) "x").errorCode
        = some (toString (503 : Nat))) ∧
    validatePAT (constNet (.fetchError "boom") (.response 200 activeAdmin)) "x" =
      ⟨false, none, some ("Network error: " ++ "boom"), some "NETWORK_ERROR"⟩) :=
  ⟨by decide,
    validatePAT_failure_taxonomy aliceUser (.response 200 activeAdmin) "x" 503 "boom" (by decide)⟩

/-- C5: `verifyUserRole` status mapping: 404 is a success with no access (not an
error); 401 and 403 are failures with distinct reasons (bad token vs missing
read-scope for organizations); every other non-200 status and every transport
failure is a failure. -/
theorem verifyUserRole_status_mapping (uo : HttpResult GitHubUser)
    (pat org username : String) (rr : List Role) (m : GitHubOrgMembership)
    (s : Nat) (e : String) (hs200 : s ≠ 200) (hs404 : s ≠ 404) :
    verifyUserRole (constNet uo (.response 404 m)) pat org username rr =
      ⟨true, false, none, some "User is not a member of this organization"⟩ ∧
    verifyUserRole (constNet uo (.response 401 m)) pat org username rr =
      ⟨false, false, none, some "Invalid Personal Access Token or insufficient permissions"⟩ ∧
    verifyUserRole (constNet uo (.response 403 m)) pat org username rr =
      ⟨false, false, none,
        some "Insufficient permissions. PAT must have read:org or admin:org scope"⟩ ∧
    ("Invalid Personal Access Token or insufficient permissions" ≠
      "Insufficient permissions. PAT must have read:org or admin:org scope") ∧
    (verifyUserRole (constNet uo (.response s m)) pat org username rr).success = false ∧
    (verifyUserRole (constNet uo (.fetchError e)) pat org username rr).success = false := by
  refine ⟨by simp [verifyUserRole, constNet], by simp [verifyUserRole, constNet],
    by simp [verifyUserRole, constNet], by decide, ?_, by simp [verifyUserRole, constNet]⟩
  by_cases h401 : s = 401 <;> by_cases h403 : s = 403 <;>
    simp [verifyUserRole, constNet, hs200, hs404, h401, h403]

/-- Witness for C5 at status 500 and a concrete transport failure. -/
theorem verifyUserRole_status_mapping_witness :
    (500 : Nat) ≠ 200 ∧ (500 : Nat) ≠ 404 ∧
    (verifyUserRole (constNet (.response 200 aliceUser) (.response 404 activeAdmin))
        "t" "acme" "alice" [Role.member] =
      ⟨true, false, none, some "User is not a member of this organization"⟩ ∧
    verifyUserRole (constNet (.response 200 aliceUser) (.response 401 activeAdmin))
        "t" "acme" "alice" [Role.member] =
      ⟨false, false, none, some "Invalid Personal Access Token or insufficient permissions"⟩ ∧
    verifyUserRole (constNet (.response 200 aliceUser) (.response 403 activeAdmin))
        "t" "acme" "alice" [Role.member] =
      ⟨false, false, none,
        some "Insufficient permissions. PAT must have read:org or admin:org scope"⟩ ∧
    ("Invalid Personal Access Token or insufficient permissions" ≠
      "Insufficient permissions. PAT must have read:org or admin:org scope") ∧
    (verifyUserRole (constNet (.response 200 aliceUser) (.response 500 activeAdmin))
        "t" "acme" "alice" [Role.member]).success = false ∧
    (verifyUserRole (constNet (.response 200 aliceUser) (.fetchError "down"))
        "t" "acme" "alice" [Role.member]).success = false) :=
  ⟨by decide, by decide,
    verifyUserRole_status_mapping (.response 200 aliceUser) "t" "acme" "alice"
      [Role.member] activeAdmin 500 "down" (by decide) (by decide)⟩

/-- C10: invariant of every `verifyUserRole` result: `hasAccess = true` implies
`success = true` and a present membership whose role is in `requiredRoles` and
whose state is `active`; and every failure branch has `hasAccess = false`. -/
theorem verifyUserRole_invariant (net : Network) (pat org username : String) (rr : List Role) :
    ((verifyUserRole net pat org username rr).hasAccess = true →
      (verifyUserRole net pat org username rr).success = true ∧
      ∃ m, (verifyUserRole net pat org username rr).membership = some m ∧
        m.role ∈ rr ∧ m.state = MembershipState.active) ∧
    ((verifyUserRole net pat org username rr).success = false →
      (verifyUserRole net pat org username rr).hasAccess = false) := by
  unfold verifyUserRole
  cases net.membershipEndpoint pat org username with
  | fetchError msg => simp
  | response status body =>
    by_cases h200 : status = 200
    · subst h200
      refine ⟨?_, ?_⟩
      · intro h
        have h2 : (decide (body.role ∈ rr) &&
            decide (body.state = MembershipState.active)) = true := h
        simp only [Bool.and_eq_true, decide_eq_true_eq] at h2
        exact ⟨rfl, body, rfl, h2.1, h2.2⟩
      · intro h
        exact absurd (show (true : Bool) = false from h) (by simp)
    · by_cases h404 : status = 404 <;> by_cases h401 : status = 401 <;>
        by_cases h403 : status = 403 <;>
        simp [h200, h404, h401, h403]

/-- Witness for C10 at a concrete active `admin` membership. -/
theorem verifyUserRole_invariant_witness :
    (((verifyUserRole (constNet (.response 200 aliceUser) (.response 200 activeAdmin))
        "t" "acme" "alice" [Role.admin]).hasAccess = true →
      (verifyUserRole (constNet (.response 200 aliceUser) (.response 200 activeAdmin))
        "t" "acme" "alice" [Role.admin]).success = true ∧
      ∃ m, (verifyUserRole (constNet (.response 200 aliceUser) (.response 200 activeAdmin))
          "t" "acme" "alice" [Role.admin]).membership = some m ∧
        m.role ∈ [Role.admin] ∧ m.state = MembershipState.active) ∧
    ((verifyUserRole (constNet (.response 200 aliceUser) (.response 200 activeAdmin))
        "t" "acme" "alice" [Role.admin]).success = false →
      (verifyUserRole (constNet (.response 200 aliceUser) (.response 200 activeAdmin))
        "t" "acme" "alice" [Role.admin]).hasAccess = false)) :=
  verifyUserRole_invariant (constNet (.response 200 aliceUser) (.response 200 activeAdmin))
    "t" "acme" "alice" [Role.admin]

/-- Helper: the member-role filter equals the spec's recursive stable filter. -/
theorem filter_eq_memberSpecAux (items : List Item) :
    items.filter (fun it => !privilegedItem it) = accessFilterSpec (some Role.member) items := by
  induction items with
  | nil => rfl
  | cons item rest ih =>
    rw [List.filter_cons]
    cases hpriv : privilegedItem item with
    | true => simpa [accessFilterSpec, hpriv] using ih
    | false => simpa [accessFilterSpec, hpriv] using ih

/-- C6: the Access Filter equals the reference function: absent role yields the
empty list, admin is the identity, member keeps exactly the non-privileged items
in their original relative order; the result depends only on (items, role). -/
theorem filterItemsByRole_eq_accessFilterSpec (role : Option Role) (items : List Item) :
    filterItemsByRole role items = accessFilterSpec role items := by
  cases role with
  | none => simp [filterItemsByRole, accessFilterSpec]
  | some r =>
    cases r with
    | admin => simp [filterItemsByRole, accessFilterSpec]
    | member =>
      have h1 : filterItemsByRole (some Role.member) items =
          items.filter (fun it => !privilegedItem it) := by
        simp [filterItemsByRole, privilegedItem]
      rw [h1]
      exact filter_eq_memberSpecAux items

/-- C7: after `clearAll` (once or twice) the store is absent: `load` returns
none, `isAuthenticated` is false, all four getters return none; `clearAll` is
idempotent and a no-op on the empty store. -/
theorem clearAll_absent_idempotent (s : SecureStorage) :
    SecureStorage.load s.clearAll = none ∧
    s.clearAll.isAuthenticated = false ∧
    s.clearAll.clearAll = s.clearAll ∧
    SecureStorage.load s.clearAll.clearAll = none ∧
    s.clearAll.clearAll.isAuthenticated = false ∧
    s.clearAll.getPAT = none ∧
    s.clearAll.getOrganization = none ∧
    s.clearAll.getUser = none ∧
    s.clearAll.getRole = none ∧
    (SecureStorage.mk none none none none).clearAll = SecureStorage.mk none none none none :=
  ⟨rfl, rfl, rfl, rfl, rfl, rfl, rfl, rfl, rfl, rfl⟩

/-- Helper: when PAT validation fails, `authenticateUser` returns the
propagated verifier failure and its Role Resolver invocation flag is false. -/
theorem authenticateUser_validate_failed (net : Network) (pat org : String) (rr : List Role)
    (h : (validatePAT net pat).success = false) :
    authenticateUser net pat org rr =
      (⟨false, none, none,
        some (strOrDefault (validatePAT net pat).error "Failed to validate PAT")⟩, false) := by
  unfold authenticateUser
  cases hu : (validatePAT net pat).user <;> simp [hu, h]

/-- C3: if the Identity Verifier step of `authenticateUser` fails, the Role
Resolver is never invoked (the invocation flag is false) and the verifier's
failure is returned immediately. -/
theorem authenticateUser_no_resolver_on_verifier_failure (net : Network) (pat org : String)
    (rr : List Role) (h : (validatePAT net pat).success = false) :
    authenticateUser net pat org rr =
      (⟨false, none, none,
        some (strOrDefault (validatePAT net pat).error "Failed to validate PAT")⟩, false) :=
  authenticateUser_validate_failed net pat org rr h

/-- Witness for C3 at a concrete 401-rejected token. -/
theorem authenticateUser_no_resolver_on_verifier_failure_witness :
    (validatePAT badNet "x").success = false ∧
    authenticateUser badNet "x" "acme" [Role.member] =
      (⟨false, none, none,
        some (strOrDefault (validatePAT badNet "x").error "Failed to validate PAT")⟩, false) :=
  ⟨rfl, authenticateUser_no_resolver_on_verifier_failure badNet "x" "acme" [Role.member] rfl⟩

/-- Helper: `strOrDefault` keeps a non-empty string. -/
theorem strOrDefault_some_of_ne (x d : String) (hx : x ≠ "") :
    strOrDefault (some x) d = x := by
  simp [strOrDefault, hx]

/-- Helper: the only error messages a failed `validatePAT` can carry. -/
theorem validatePAT_error_shape (net : Network) (pat : String)
    (hf : (validatePAT net pat).success = false) :
    (validatePAT net pat).error = some "Invalid or expired Personal Access Token" ∨
    (∃ s : Nat, (validatePAT net pat).error =
      some ("GitHub API returned status " ++ toString s)) ∨
    (∃ m : String, (validatePAT net pat).error = some ("Network error: " ++ m)) := by
  cases huo : net.userEndpoint pat with
  | fetchError msg =>
    right; right
    exact ⟨msg, by simp [validatePAT, huo]⟩
  | response s body =>
    by_cases h200 : s = 200
    · subst h200
      simp [validatePAT, huo] at hf
    · by_cases h401 : s = 401
      · subst h401
        left
        simp [validatePAT, huo]
      · right; left
        exact ⟨s, by simp [validatePAT, huo, h200, h401]⟩

/-- Helper: no run of `authenticateUser` whose Identity Verifier step failed can
produce either insufficient-role error message. -/
theorem verifier_failure_error_ne (e : String)
    (he : e = "User does not have the required role in the organization" ∨
      e = "User is not a member of this organization")
    (net2 : Network) (pat2 org2 : String) (rr2 : List Role)
    (hf : (validatePAT net2 pat2).success = false) :
    (authenticateUser net2 pat2 org2 rr2).1.error ≠ some e := by
  rw [authenticateUser_validate_failed net2 pat2 org2 rr2 hf]
  intro hcontra
  have hc : strOrDefault (validatePAT net2 pat2).error "Failed to validate PAT" = e :=
    Option.some.inj hcontra
  rcases validatePAT_error_shape net2 pat2 hf with h1 | ⟨s, h2⟩ | ⟨m, h3⟩
  · rw [h1, strOrDefault_some_of_ne _ _ (by decide)] at hc
    rcases he with he | he <;> rw [he] at hc <;> exact absurd hc (by decide)
  · rw [h2, strOrDefault_some_of_ne _ _
      (append_ne_of_head_ne _ _ _ (by decide) (by decide))] at hc
    rcases he with he | he <;> rw [he] at hc <;>
      exact absurd hc (append_ne_of_head_ne _ _ _ (by decide) (by decide))
  · rw [h3, strOrDefault_some_of_ne _ _
      (append_ne_of_head_ne _ _ _ (by decide) (by decide))] at hc
    rcases he with he | he <;> rw [he] at hc <;>
      exact absurd hc (append_ne_of_head_ne _ _ _ (by decide) (by decide))

/-- C2: when the Identity Verifier succeeds and the Role Resolver returns ok
with `hasAccess = false`, `authenticateUser` fails with an insufficient-role
error message that no verification-failure run can produce. -/
theorem authenticateUser_insufficient_role (net : Network) (pat org : String) (rr : List Role)
    (u : GitHubUser)
    (hs : (validatePAT net pat).success = true)
    (hu : (validatePAT net pat).user = some u)
    (hok : (verifyUserRole net pat org u.login rr).success = true)
    (hacc : (verifyUserRole net pat org u.login rr).hasAccess = false) :
    (authenticateUser net pat org rr).1.success = false ∧
    ∃ e, (authenticateUser net pat org rr).1.error = some e ∧
      (e = "User does not have the required role in the organization" ∨
        e = "User is not a member of this organization") ∧
      ∀ (net2 : Network) (pat2 org2 : String) (rr2 : List Role),
        (validatePAT net2 pat2).success = false →
        (authenticateUser net2 pat2 org2 rr2).1.error ≠ some e := by
  have hrun : authenticateUser net pat org rr =
      (⟨false, none, none,
        some (strOrDefault (verifyUserRole net pat org u.login rr).error
          "User does not have the required role in the organization")⟩, true) := by
    unfold authenticateUser
    simp [hu, hs, hok, hacc]
  have hcase :
      (verifyUserRole net pat org u.login rr).error = none ∨
      (verifyUserRole net pat org u.login rr).error =
        some "User is not a member of this organization" := by
    cases hm : net.membershipEndpoint pat org u.login with
    | fetchError msg =>
      rw [show (verifyUserRole net pat org u.login rr).success = false from by
        simp [verifyUserRole, hm]] at hok
      exact Bool.noConfusion hok
    | response s body =>
      by_cases h200 : s = 200
      · subst h200
        left
        simp [verifyUserRole, hm]
      · by_cases h404 : s = 404
        · subst h404
          right
          simp [verifyUserRole, hm]
        · exfalso
          have hflip : (verifyUserRole net pat org u.login rr).success = false := by
            by_cases h401 : s = 401 <;> by_cases h403 : s = 403 <;>
              simp [verifyUserRole, hm, h200, h404, h401, h403]
          rw [hflip] at hok
          exact Bool.noConfusion hok
  rw [hrun]
  refine ⟨rfl, ?_⟩
  rcases hcase with hnone | hsome
  · refine ⟨"User does not have the required role in the organization", ?_, Or.inl rfl, ?_⟩
    · rw [hnone]
      rfl
    · intro net2 pat2 org2 rr2 hf
      exact verifier_failure_error_ne _ (Or.inl rfl) net2 pat2 org2 rr2 hf
  · refine ⟨"User is not a member of this organization", ?_, Or.inr rfl, ?_⟩
    · rw [hsome]
      rw [strOrDefault_some_of_ne _ _ (by decide)]
    · intro net2 pat2 org2 rr2 hf
      exact verifier_failure_error_ne _ (Or.inr rfl) net2 pat2 org2 rr2 hf

/-- Witness for C2: valid token whose handle has only a pending membership. -/
theorem authenticateUser_insufficient_role_witness :
    ((validatePAT okNet "T2").success = true ∧
     (validatePAT okNet "T2").user = some aliceUser ∧
     (verifyUserRole okNet "T2" "acme" aliceUser.login [Role.member]).success = true ∧
     (verifyUserRole okNet "T2" "acme" aliceUser.login [Role.member]).hasAccess = false) ∧
    ((authenticateUser okNet "T2" "acme" [Role.member]).1.success = false ∧
     ∃ e, (authenticateUser okNet "T2" "acme" [Role.member]).1.error = some e ∧
       (e = "User does not have the required role in the organization" ∨
         e = "User is not a member of this organization") ∧
       ∀ (net2 : Network) (pat2 org2 : String) (rr2 : List Role),
         (validatePAT net2 pat2).success = false →
         (authenticateUser net2 pat2 org2 rr2).1.error ≠ some e) :=
  ⟨⟨rfl, rfl, rfl, by decide⟩,
    authenticateUser_insufficient_role okNet "T2" "acme" [Role.member] aliceUser
      rfl rfl rfl (by decide)⟩

/-- Helper: a dialog run either succeeds or leaves the storage untouched. -/
theorem showAuthenticationDialog_cases (net : Network) (patInput : Option String)
    (storage : SecureStorage) (dOrg : Option String) :
    (showAuthenticationDialog net patInput storage dOrg).1.success = true ∨
    (showAuthenticationDialog net patInput storage dOrg).2 = storage := by
  unfold showAuthenticationDialog
  cases htr : truthy patInput with
  | false => right; simp [htr]
  | true =>
    cases hsucc : (authenticateUser net (patInput.getD "") "avrocc"
        [Role.admin, Role.member]).1.success with
    | false => right; simp [htr, hsucc]
    | true =>
      cases huser : (authenticateUser net (patInput.getD "") "avrocc"
          [Role.admin, Role.member]).1.user with
      | none => right; simp [htr, hsucc, huser]
      | some uu => left; simp [htr, hsucc, huser]

/-- C8: a failed sign-in dialog run performs no write to the Credential Store:
the state is unchanged, so all four getters and `load` afterwards return exactly
what was stored before the attempt. -/
theorem showAuthenticationDialog_frame (net : Network) (patInput : Option String)
    (storage : SecureStorage) (dOrg : Option String)
    (h : (showAuthenticationDialog net patInput storage dOrg).1.success = false) :
    (showAuthenticationDialog net patInput storage dOrg).2 = storage ∧
    (showAuthenticationDialog net patInput storage dOrg).2.getPAT = storage.getPAT ∧
    (showAuthenticationDialog net patInput storage dOrg).2.getOrganization =
      storage.getOrganization ∧
    (showAuthenticationDialog net patInput storage dOrg).2.getUser = storage.getUser ∧
    (showAuthenticationDialog net patInput storage dOrg).2.getRole = storage.getRole ∧
    SecureStorage.load (showAuthenticationDialog net patInput storage dOrg).2 =
      SecureStorage.load storage := by
  rcases showAuthenticationDialog_cases net patInput storage dOrg with hsucc | hstate
  · rw [h] at hsucc
    exact Bool.noConfusion hsucc
  · exact ⟨hstate, by rw [hstate], by rw [hstate], by rw [hstate], by rw [hstate],
      by rw [hstate]⟩

/-- Witness for C8: an insufficient-role failure leaves a previously stored
session intact. -/
theorem showAuthenticationDialog_frame_witness :
    (showAuthenticationDialog okNet (some "ghp_x") priorStorage none).1.success = false ∧
    ((showAuthenticationDialog okNet (some "ghp_x") priorStorage none).2 = priorStorage ∧
     (showAuthenticationDialog okNet (some "ghp_x") priorStorage none).2.getPAT =
       priorStorage.getPAT ∧
     (showAuthenticationDialog okNet (some "ghp_x") priorStorage none).2.getOrganization =
       priorStorage.getOrganization ∧
     (showAuthenticationDialog okNet (some "ghp_x") priorStorage none).2.getUser =
       priorStorage.getUser ∧
     (showAuthenticationDialog okNet (some "ghp_x") priorStorage none).2.getRole =
       priorStorage.getRole ∧
     SecureStorage.load (showAuthenticationDialog okNet (some "ghp_x") priorStorage none).2 =
       SecureStorage.load priorStorage) :=
  ⟨by decide, showAuthenticationDialog_frame okNet (some "ghp_x") priorStorage none (by decide)⟩

/-- C9: on startup with a stored session whose token the Identity Verifier
rejects, the bootstrapper clears the store and settles into no-session: the
authenticated flag is false, the state is the cleared store, and afterwards
`isAuthenticated` is false and `load` is absent. -/
theorem activate_purges_invalid_session (net : Network) (storage : SecureStorage) (p : String)
    (hp : storage.pat = some p) (hpe : p ≠ "")
    (hu : truthy storage.user = true)
    (hfail : (validatePAT net p).success = false) :
    activate net storage = (false, storage.clearAll) ∧
    (activate net storage).2.isAuthenticated = false ∧
    SecureStorage.load (activate net storage).2 = none := by
  have hrun : activate net storage = (false, storage.clearAll) := by
    have htp : truthy (some p) = true := by simp [truthy, hpe]
    unfold activate
    simp [SecureStorage.isAuthenticated, SecureStorage.getPAT, SecureStorage.getUser,
      hp, htp, hu, hpe, hfail]
  refine ⟨hrun, ?_, ?_⟩ <;> rw [hrun] <;> rfl

/-- Witness for C9: a stored session whose token the endpoint now rejects. -/
theorem activate_purges_invalid_session_witness :
    (SecureStorage.mk (some "T3") (some "acme") (some "alice") (some "admin")).pat = some "T3" ∧
    "T3" ≠ "" ∧
    truthy (SecureStorage.mk (some "T3") (some "acme") (some "alice") (some "admin")).user
      = true ∧
    (validatePAT badNet "T3").success = false ∧
    (activate badNet (SecureStorage.mk (some "T3") (some "acme") (some "alice") (some "admin")) =
      (false, (SecureStorage.mk (some "T3") (some "acme") (some "alice") (some "admin")).clearAll) ∧
    (activate badNet
      (SecureStorage.mk (some "T3") (some "acme") (some "alice") (some "admin"))).2.isAuthenticated
        = false ∧
    SecureStorage.load (activate badNet
      (SecureStorage.mk (some "T3") (some "acme") (some "alice") (some "admin"))).2 = none) :=
  ⟨rfl, by decide, rfl, rfl,
    activate_purges_invalid_session badNet
      (SecureStorage.mk (some "T3") (some "acme") (some "alice") (some "admin")) "T3"
      rfl (by decide) rfl rfl⟩

end Avro
